import Mathlib

/-!
Shallow embedding of the analytics core of the full-moon / homicide-rate
frontend (React + TypeScript), together with proofs about the statistical
computations the components perform.

Conventions of the embedding:
* A JavaScript number is modelled by `JSNum`: a finite value (an exact
  rational; the counts in the dataset are small integers, so the arithmetic
  appearing in the claims is exact in binary floating point as well) or one
  of the special values NaN, +Infinity, -Infinity.  The arithmetic operators
  follow the IEEE-754 rules on these symbolic values; signed zero is not
  distinguished (the incident counts are non-negative).
* Dates are triples (year, month, day); the components parse ISO strings and
  read the fields back with getFullYear / getMonth / getDate, which we model
  directly (local time zone taken as UTC).
* `Math.sin` and `Math.PI` return doubles, i.e. particular rational values;
  they are passed as parameters `msin : Rat -> Rat` and `mpi : Rat` to the
  functions that use them, with the bound `-1 <= msin x <= 1` assumed where
  a proof needs it.
-/

/-- A JavaScript number: finite (exact rational), NaN, or a signed infinity. -/
inductive JSNum where
  | num : ℚ → JSNum
  | nan : JSNum
  | inf : JSNum
  | ninf : JSNum
deriving DecidableEq

namespace JSNum

/-- JavaScript subtraction on `JSNum` (IEEE-754 rules for the special values). -/
def sub : JSNum → JSNum → JSNum
  | nan, _ => nan
  | _, nan => nan
  | num a, num b => num (a - b)
  | inf, inf => nan
  | inf, _ => inf
  | ninf, ninf => nan
  | ninf, _ => ninf
  | num _, inf => ninf
  | num _, ninf => inf

/-- JavaScript multiplication on `JSNum` (IEEE-754 rules for the special values). -/
def mul : JSNum → JSNum → JSNum
  | nan, _ => nan
  | _, nan => nan
  | num a, num b => num (a * b)
  | inf, num b => if b = 0 then nan else if 0 < b then inf else ninf
  | num a, inf => if a = 0 then nan else if 0 < a then inf else ninf
  | inf, inf => inf
  | inf, ninf => ninf
  | ninf, inf => ninf
  | ninf, ninf => inf
  | ninf, num b => if b = 0 then nan else if 0 < b then ninf else inf
  | num a, ninf => if a = 0 then nan else if 0 < a then ninf else inf

/-- JavaScript division on `JSNum`: division of a finite value by zero yields
NaN (for 0/0) or a signed infinity, exactly as in IEEE-754. -/
def div : JSNum → JSNum → JSNum
  | nan, _ => nan
  | _, nan => nan
  | num a, num b =>
      if b = 0 then (if a = 0 then nan else if 0 < a then inf else ninf)
      else num (a / b)
  | num _, inf => num 0
  | num _, ninf => num 0
  | inf, num b => if 0 ≤ b then inf else ninf
  | ninf, num b => if 0 ≤ b then ninf else inf
  | inf, inf => nan
  | inf, ninf => nan
  | ninf, inf => nan
  | ninf, ninf => nan

end JSNum

/-- A calendar date as the components read it back from a parsed Date:
getFullYear, getMonth () + 1, getDate (). -/
structure CalDate where
  year : ℕ
  month : ℕ
  day : ℕ
deriving DecidableEq

/-- One per-day record of the dataset (interface DailyData / the daily_data
entries): date, incident count, moon-phase fraction, full-moon flag. -/
structure DailyRecord where
  date : CalDate
  count : ℚ
  moonPhase : ℚ
  isFullMoon : Bool
deriving DecidableEq

/-- One city's dataset (interface CityData). -/
structure CityData where
  correlation : ℚ
  pValue : ℚ
  dailyData : List DailyRecord
deriving DecidableEq

/-- The recurring pattern `list.reduce((sum, day) => sum + day.count, 0) / list.length`:
a JavaScript division of the summed counts by the length, NaN when the list is
empty. -/
def jsAverage (l : List DailyRecord) : JSNum :=
  JSNum.div (JSNum.num ((l.map (fun r => r.count)).sum)) (JSNum.num l.length)

namespace StatisticsPanel

/-- The value object returned by calculateStats in StatisticsPanel.tsx. -/
structure PanelStats where
  fullMoonDays : ℕ
  nonFullMoonDays : ℕ
  fullMoonAvgCrimes : JSNum
  nonFullMoonAvgCrimes : JSNum
  normalizedFullMoonRate : JSNum
  normalizedNonFullMoonRate : JSNum
  percentDifference : JSNum
deriving DecidableEq

/-- calculateStats from StatisticsPanel.tsx (the same inline formulas are
repeated in App.tsx lines 290-295 and in its per-city conclusion cards). -/
def calculateStats (dailyData : List DailyRecord) : PanelStats :=
  let fullMoonDays := dailyData.filter (fun d => d.isFullMoon)
  let nonFullMoonDays := dailyData.filter (fun d => !d.isFullMoon)
  let fullMoonAvg := jsAverage fullMoonDays
  let nonFullMoonAvg := jsAverage nonFullMoonDays
  { fullMoonDays := fullMoonDays.length
    nonFullMoonDays := nonFullMoonDays.length
    fullMoonAvgCrimes := fullMoonAvg
    nonFullMoonAvgCrimes := nonFullMoonAvg
    normalizedFullMoonRate := JSNum.div fullMoonAvg nonFullMoonAvg
    normalizedNonFullMoonRate := JSNum.num 1
    percentDifference :=
      JSNum.mul (JSNum.div (JSNum.sub fullMoonAvg nonFullMoonAvg) nonFullMoonAvg)
        (JSNum.num 100) }

end StatisticsPanel

namespace DistributionAnalysis

/-- The value object returned by calculateStats in DistributionAnalysis.tsx. -/
structure DistStats where
  fullMoonAvgCrimes : JSNum
  nonFullMoonAvgCrimes : JSNum
  normalizedFullMoonRate : JSNum
  normalizedNonFullMoonRate : JSNum
deriving DecidableEq

/-- calculateStats from DistributionAnalysis.tsx. -/
def calculateStats (dailyData : List DailyRecord) : DistStats :=
  let fullMoonDays := dailyData.filter (fun d => d.isFullMoon)
  let nonFullMoonDays := dailyData.filter (fun d => !d.isFullMoon)
  let fullMoonAvg := jsAverage fullMoonDays
  let nonFullMoonAvg := jsAverage nonFullMoonDays
  { fullMoonAvgCrimes := fullMoonAvg
    nonFullMoonAvgCrimes := nonFullMoonAvg
    normalizedFullMoonRate := JSNum.div fullMoonAvg nonFullMoonAvg
    normalizedNonFullMoonRate := JSNum.num 1 }

end DistributionAnalysis

namespace GeographicalInsights

/-- The value object returned by calculateCityStats in GeographicalInsights. -/
structure CityStats where
  fullMoonAvg : JSNum
  nonFullMoonAvg : JSNum
  totalIncidents : ℚ
  effectSize : JSNum
  significance : Bool
deriving DecidableEq

/-- calculateCityStats from the GeographicalInsights component. -/
def calculateCityStats (cityData : CityData) : CityStats :=
  let fullMoonDays := cityData.dailyData.filter (fun d => d.isFullMoon)
  let nonFullMoonDays := cityData.dailyData.filter (fun d => !d.isFullMoon)
  let fullMoonAvg := jsAverage fullMoonDays
  let nonFullMoonAvg := jsAverage nonFullMoonDays
  { fullMoonAvg := fullMoonAvg
    nonFullMoonAvg := nonFullMoonAvg
    totalIncidents := (cityData.dailyData.map (fun r => r.count)).sum
    effectSize :=
      JSNum.mul (JSNum.div (JSNum.sub fullMoonAvg nonFullMoonAvg) nonFullMoonAvg)
        (JSNum.num 100)
    significance := decide (cityData.pValue < 0.05) }

/-- The Population Factor as the component actually renders it:
Math.max (nycStats.totalIncidents, laStats.totalIncidents) divided by
Math.min over all three cities.  Note that Chicago is absent from the
numerator. -/
def populationFactor (chicagoStats nycStats laStats : CityStats) : JSNum :=
  JSNum.div
    (JSNum.num (max nycStats.totalIncidents laStats.totalIncidents))
    (JSNum.num (min chicagoStats.totalIncidents
      (min nycStats.totalIncidents laStats.totalIncidents)))

/-- Modelled from the spec: the intended population factor, the maximum of the
three cities' totalIncidents divided by their minimum, matching the caption
rendered next to the value (Highest vs lowest incident ratio). -/
def intendedPopulationFactor (chicagoTotal nycTotal laTotal : ℚ) : ℚ :=
  max chicagoTotal (max nycTotal laTotal) /
    min chicagoTotal (min nycTotal laTotal)

end GeographicalInsights

namespace App

/-- getMoonPhaseName from App.tsx: the chain of threshold tests mapping a
moon-phase fraction to one of the eight phase names.  Only the first branch
checks the lower bound 0. -/
def getMoonPhaseName (phase : ℚ) : String :=
  if 0 ≤ phase ∧ phase < 0.125 then "New Moon"
  else if phase < 0.25 then "Waxing Crescent"
  else if phase < 0.375 then "First Quarter"
  else if phase < 0.625 then "Waxing Gibbous"
  else if phase < 0.75 then "Full Moon"
  else if phase < 0.875 then "Waning Gibbous"
  else if phase < 0.95 then "Last Quarter"
  else "Waning Crescent"

end App

/-- isLeapYear as JavaScript Date arithmetic realises it (Gregorian rule). -/
def isLeapYear (y : ℕ) : Bool :=
  y % 4 == 0 && (y % 100 != 0 || y % 400 == 0)

/-- The number of days of calendar month m (1-12) of year y, the value of
new Date (year, monthNum, 0).getDate () in TimeAnalysis.tsx. -/
def daysInCalendarMonth (y m : ℕ) : ℕ :=
  if m = 2 then (if isLeapYear y then 29 else 28)
  else if m = 4 ∨ m = 6 ∨ m = 9 ∨ m = 11 then 30
  else 31

/-- Zeller's congruence: 0 = Saturday, 1 = Sunday, ..., 6 = Friday. -/
def zellerH (y m d : ℕ) : ℕ :=
  let mz := if m ≤ 2 then m + 12 else m
  let yz := if m ≤ 2 then y - 1 else y
  let K := yz % 100
  let J := yz / 100
  (d + (13 * (mz + 1)) / 5 + K + K / 4 + J / 4 + 5 * J) % 7

/-- The weekday index returned by Date.getDay (): 0 = Sunday, ..., 6 = Saturday. -/
def jsGetDay (dt : CalDate) : ℕ :=
  (zellerH dt.year dt.month dt.day + 6) % 7

namespace TimeAnalysis

/-- The days array of getDayOfWeekData, indexed by Date.getDay (). -/
def dayNames : List String :=
  ["Sunday", "Monday", "Tuesday", "Wednesday", "Thursday", "Friday", "Saturday"]

/-- The month key of a record, year-month as built from getFullYear and
getMonth () + 1 (the YYYY-MM string is modelled by the pair). -/
def monthKey (r : DailyRecord) : ℕ × ℕ :=
  (r.date.year, r.date.month)

/-- The distinct month keys of the data in first-insertion order, matching
iteration over the Map built by the first pass of getMonthlyData. -/
def monthKeys (data : List DailyRecord) : List (ℕ × ℕ) :=
  data.foldl (fun ks r => if monthKey r ∈ ks then ks else ks ++ [monthKey r]) []

/-- One element of the array returned by getMonthlyData. -/
structure MonthBucket where
  month : ℕ × ℕ
  average : ℚ
  fullMoonAverage : ℚ
  fullMoonCount : ℕ
  totalDays : ℕ
  completeness : ℚ
  fullMoonCompleteness : ℚ
  daysInMonth : ℕ
  daysWithData : ℚ
deriving DecidableEq

/-- getMonthlyData from TimeAnalysis.tsx: group records by month key, then for
each bucket compute the averages, the full-moon statistics and the
completeness percentage (stats.days.size / daysInMonth) * 100, where
stats.days is the set of distinct day-of-month values observed. -/
def getMonthlyData (data : List DailyRecord) : List MonthBucket :=
  (monthKeys data).map (fun k =>
    let recs := data.filter (fun r => monthKey r = k)
    let total := (recs.map (fun r => r.count)).sum
    let cnt := recs.length
    let fmRecs := recs.filter (fun r => r.isFullMoon)
    let fullMoonTotal := (fmRecs.map (fun r => r.count)).sum
    let fullMoonCount := fmRecs.length
    let distinctDays := (recs.map (fun r => r.date.day)).dedup
    let dim := daysInCalendarMonth k.1 k.2
    { month := k
      average := total / cnt
      fullMoonAverage := if 0 < fullMoonCount then fullMoonTotal / fullMoonCount else 0
      fullMoonCount := fullMoonCount
      totalDays := cnt
      completeness := ((distinctDays.length : ℚ) / dim) * 100
      fullMoonCompleteness := if 0 < fullMoonCount then 100 else 0
      daysInMonth := dim
      daysWithData := distinctDays.length })

/-- One element of the array returned by getDayOfWeekData. -/
structure WeekdayBucket where
  name : String
  average : ℚ
  fullMoonAverage : ℚ
  fullMoonCount : ℕ
  totalDays : ℕ
deriving DecidableEq

/-- The bucket getDayOfWeekData builds for weekday index w from the first-pass
accumulator entries. -/
def weekdayBucket (data : List DailyRecord) (w : ℕ) : WeekdayBucket :=
  let recs := data.filter (fun r => jsGetDay r.date == w)
  let fmRecs := recs.filter (fun r => r.isFullMoon)
  { name := dayNames.getD w ""
    average := (recs.map (fun r => r.count)).sum / recs.length
    fullMoonAverage :=
      if 0 < fmRecs.length then (fmRecs.map (fun r => r.count)).sum / fmRecs.length
      else 0
    fullMoonCount := fmRecs.length
    totalDays := recs.length }

/-- getDayOfWeekData from TimeAnalysis.tsx.  The second pass maps over the
seven day names and reads weekdayMap.get (day) without a default: when some
weekday never occurs in the data, that lookup is undefined and dereferencing
stats.total throws a TypeError, which the embedding renders as none. -/
def getDayOfWeekData (data : List DailyRecord) : Option (List WeekdayBucket) :=
  (List.range 7).mapM (fun w =>
    if (data.filter (fun r => jsGetDay r.date == w)).isEmpty then none
    else some (weekdayBucket data w))

/-- seededRandom from TimeAnalysis.tsx: Math.sin (seed) * 10000 minus its
Math.floor, the fractional part.  The post-increment seed++ mutates only the
local parameter and has no observable effect.  msin stands for Math.sin. -/
def seededRandom (msin : ℚ → ℚ) (seed : ℚ) : ℚ :=
  let x := msin seed * 10000
  x - ⌊x⌋

/-- One element of the array returned by getHourlyData. -/
structure HourEntry where
  hour : String
  rawHour : ℕ
  rate : ℚ
  fullMoonRate : ℚ
deriving DecidableEq

/-- The display label given to an hour slot by getHourlyData. -/
def formatHour (hour : ℕ) : String :=
  if hour = 0 then "12 AM"
  else if hour = 12 then "12 PM"
  else if 12 < hour then toString (hour - 12) ++ " PM"
  else toString hour ++ " AM"

/-- getHourlyData from TimeAnalysis.tsx: for each of the 24 hour slots the
mean daily count is scaled by a sinusoidal factor and a seeded jitter
multiplier.  msin and mpi stand for Math.sin and Math.PI.  (For empty data
the JavaScript base rate is NaN; the rational embedding evaluates 0 / 0 to 0
there, a case none of the claims depends on.) -/
def getHourlyData (msin : ℚ → ℚ) (mpi : ℚ) (data : List DailyRecord) :
    List HourEntry :=
  (List.range 24).map (fun (hour : ℕ) =>
    let baseRate := (data.map (fun r => r.count)).sum / (data.length : ℚ)
    let hourlyFactor := msin (((hour : ℚ) - 6) * mpi / 12) + 1.5
    let normalRate := seededRandom msin ((hour : ℚ) * 1000)
    let fullMoonRate := seededRandom msin ((hour : ℚ) * 2000)
    { hour := formatHour hour
      rawHour := hour
      rate := baseRate * hourlyFactor * (normalRate * 0.4 + 0.8)
      fullMoonRate := baseRate * hourlyFactor * (fullMoonRate * 0.6 + 1.0) })

end TimeAnalysis

/-- A record set containing no full-moon day at all. -/
def exampleNoFullMoon : List DailyRecord :=
  [{ date := { year := 2024, month := 1, day := 2 }, count := 5, moonPhase := 0.2,
     isFullMoon := false }]

/-- A record set whose non-full-moon group averages to zero. -/
def exampleZeroBaseline : List DailyRecord :=
  [{ date := { year := 2024, month := 1, day := 3 }, count := 5, moonPhase := 0.7,
     isFullMoon := true },
   { date := { year := 2024, month := 1, day := 4 }, count := 0, moonPhase := 0.1,
     isFullMoon := false }]

/-- A record set covering only one weekday (2024-01-07 is a Sunday). -/
def exampleSundayOnly : List DailyRecord :=
  [{ date := { year := 2024, month := 1, day := 7 }, count := 2, moonPhase := 0.1,
     isFullMoon := false }]

/-- A record set with one observed day in a 31-day month. -/
def exampleOneJanuaryDay : List DailyRecord :=
  [{ date := { year := 2024, month := 1, day := 15 }, count := 3, moonPhase := 0.5,
     isFullMoon := false }]

/-- The worked example of the spec: ten non-full-moon days of count 5 and
three full-moon days of count 8. -/
def exampleTenAndThree : List DailyRecord :=
  List.replicate 10
      { date := { year := 2024, month := 1, day := 1 }, count := 5, moonPhase := 0.3,
        isFullMoon := false } ++
    List.replicate 3
      { date := { year := 2024, month := 1, day := 11 }, count := 8, moonPhase := 0.68,
        isFullMoon := true }

/-- A city dataset whose total incident count is 100 (the largest of the trio). -/
def chicagoLargest : CityData :=
  { correlation := 0, pValue := 0.01,
    dailyData := [{ date := { year := 2024, month := 1, day := 5 }, count := 100,
                    moonPhase := 0.5, isFullMoon := true }] }

/-- A city dataset whose total incident count is 10 (the smallest of the trio). -/
def nycSmallest : CityData :=
  { correlation := 0, pValue := 0.2,
    dailyData := [{ date := { year := 2024, month := 1, day := 5 }, count := 10,
                    moonPhase := 0.5, isFullMoon := true }] }

/-- A city dataset whose total incident count is 20. -/
def laMiddle : CityData :=
  { correlation := 0, pValue := 0.2,
    dailyData := [{ date := { year := 2024, month := 1, day := 5 }, count := 20,
                    moonPhase := 0.5, isFullMoon := true }] }

/-- A city dataset wrapping exampleZeroBaseline. -/
def exampleZeroBaselineCity : CityData :=
  { correlation := 0, pValue := 0.03, dailyData := exampleZeroBaseline }

/-- Seven records covering all seven weekdays (2024-01-01 is a Monday,
2024-01-07 a Sunday). -/
def exampleFullWeek : List DailyRecord :=
  (List.range 7).map (fun i =>
    { date := { year := 2024, month := 1, day := i + 1 }, count := 1, moonPhase := 0.1,
      isFullMoon := false })

/-- The monthly bucket produced by getMonthlyData on exampleOneJanuaryDay. -/
def exampleJanuaryBucket : TimeAnalysis.MonthBucket :=
  { month := (2024, 1), average := 3, fullMoonAverage := 0, fullMoonCount := 0,
    totalDays := 1, completeness := 100 / 31, fullMoonCompleteness := 0,
    daysInMonth := 31, daysWithData := 1 }

/-- A stand-in for Math.sin that is identically zero, used to instantiate the
hourly-profile theorems at a concrete input. -/
def msinZero : ℚ → ℚ := fun _ => 0

/-- The first entry of the hourly profile generated with the zero sine
stand-in over exampleOneJanuaryDay: 3 * 1.5 * 0.8 and 3 * 1.5 * 1.0. -/
def exampleHourEntryZero : TimeAnalysis.HourEntry :=
  { hour := "12 AM", rawHour := 0, rate := 18 / 5, fullMoonRate := 9 / 2 }

/-- C1, counterexample: on a record set whose full-moon partition is empty the
Group-Average Calculator does not fail with a typed error; it returns NaN for
the full-moon average, the normalized rate and the percent difference. -/
theorem c1_counterexample :
    (StatisticsPanel.calculateStats exampleNoFullMoon).fullMoonAvgCrimes = JSNum.nan ∧
    (StatisticsPanel.calculateStats exampleNoFullMoon).normalizedFullMoonRate = JSNum.nan ∧
    (StatisticsPanel.calculateStats exampleNoFullMoon).percentDifference = JSNum.nan := by
  decide

/-- C2, counterexample: with a zero baseline average the Effect-Size
computation does not fail with a typed error; the normalized ratio it
produces is Infinity. -/
theorem c2_counterexample :
    (DistributionAnalysis.calculateStats exampleZeroBaseline).nonFullMoonAvgCrimes =
      JSNum.num 0 ∧
    (DistributionAnalysis.calculateStats exampleZeroBaseline).normalizedFullMoonRate =
      JSNum.inf := by
  norm_num [DistributionAnalysis.calculateStats, jsAverage, exampleZeroBaseline,
    JSNum.div]

/-- C3, counterexample: on a record set in which six of the seven weekdays
have no records, the weekday aggregation does not return 7 buckets: the
second pass dereferences an undefined map entry and crashes (none). -/
theorem c3_counterexample :
    TimeAnalysis.getDayOfWeekData exampleSundayOnly = none := by
  decide

/-- C4: with totals Chicago = 100, NYC = 10, LA = 20 the rendered population
factor is max (10, 20) / min (100, 10, 20) = 2, while the documented value
max / min over all three cities is 10: the code omits Chicago from the
numerator. -/
theorem c4_population_factor_bug :
    GeographicalInsights.populationFactor
        (GeographicalInsights.calculateCityStats chicagoLargest)
        (GeographicalInsights.calculateCityStats nycSmallest)
        (GeographicalInsights.calculateCityStats laMiddle) = JSNum.num 2 ∧
    GeographicalInsights.intendedPopulationFactor 100 10 20 = 10 ∧
    JSNum.num 2 ≠ JSNum.num 10 := by
  norm_num [GeographicalInsights.populationFactor,
    GeographicalInsights.calculateCityStats,
    GeographicalInsights.intendedPopulationFactor,
    chicagoLargest, nycSmallest, laMiddle, jsAverage, JSNum.div]

/-- C5, counterexample: a monthly bucket with one observed day in a 31-day
month has completeness 100 / 31, which is neither the claimed ratio 1 / 31
nor inside (0, 1]: the field is a percentage. -/
theorem c5_counterexample :
    (TimeAnalysis.getMonthlyData exampleOneJanuaryDay).map
        (fun b => b.completeness) = [100 / 31] ∧
    ¬ ((100 : ℚ) / 31 ≤ 1) := by
  norm_num [TimeAnalysis.getMonthlyData, TimeAnalysis.monthKeys,
    TimeAnalysis.monthKey, exampleOneJanuaryDay, daysInCalendarMonth, isLeapYear,
    List.dedup]

/-- C6: on ten non-full-moon records of count 5 and three full-moon records
of count 8, the Group-Average Calculator yields baseline average 5 and
treatment average 8, and the Effect-Size Calculator yields percent
difference 60 and normalized ratio 8 / 5 = 1.6. -/
theorem c6_worked_example :
    (StatisticsPanel.calculateStats exampleTenAndThree).nonFullMoonAvgCrimes =
      JSNum.num 5 ∧
    (StatisticsPanel.calculateStats exampleTenAndThree).fullMoonAvgCrimes =
      JSNum.num 8 ∧
    (StatisticsPanel.calculateStats exampleTenAndThree).percentDifference =
      JSNum.num 60 ∧
    (StatisticsPanel.calculateStats exampleTenAndThree).normalizedFullMoonRate =
      JSNum.num (8 / 5) := by
  norm_num [StatisticsPanel.calculateStats, jsAverage, exampleTenAndThree,
    List.replicate, JSNum.div, JSNum.sub, JSNum.mul]

/-- C7, counterexample: the Phase Classifier maps 0.125 to Waxing Crescent
(not to the First Quarter band) and 0.124999 to New Moon (not to Waxing
Crescent). -/
theorem c7_counterexample :
    App.getMoonPhaseName 0.125 = "Waxing Crescent" ∧
    App.getMoonPhaseName 0.125 ≠ "First Quarter" ∧
    App.getMoonPhaseName 0.124999 = "New Moon" ∧
    App.getMoonPhaseName 0.124999 ≠ "Waxing Crescent" := by
  refine ⟨?_, ?_, ?_, ?_⟩ <;> norm_num [App.getMoonPhaseName] <;> decide

/-- C7, amended: a phase value of exactly 0.125 falls in the Waxing Crescent
band and 0.124999 falls in the New Moon band, as the half-open
lower-inclusive boundary table dictates. -/
theorem c7_boundary_classification :
    App.getMoonPhaseName 0.125 = "Waxing Crescent" ∧
    App.getMoonPhaseName 0.124999 = "New Moon" := by
  constructor <;> norm_num [App.getMoonPhaseName]

@[simp] theorem JSNum.sub_nan_left (x : JSNum) : JSNum.sub JSNum.nan x = JSNum.nan := by
  cases x <;> rfl

@[simp] theorem JSNum.sub_nan_right (x : JSNum) : JSNum.sub x JSNum.nan = JSNum.nan := by
  cases x <;> rfl

@[simp] theorem JSNum.mul_nan_left (x : JSNum) : JSNum.mul JSNum.nan x = JSNum.nan := by
  cases x <;> rfl

@[simp] theorem JSNum.mul_nan_right (x : JSNum) : JSNum.mul x JSNum.nan = JSNum.nan := by
  cases x <;> rfl

@[simp] theorem JSNum.div_nan_left (x : JSNum) : JSNum.div JSNum.nan x = JSNum.nan := by
  cases x <;> rfl

@[simp] theorem JSNum.div_nan_right (x : JSNum) : JSNum.div x JSNum.nan = JSNum.nan := by
  cases x <;> rfl

@[simp] theorem jsAverage_nil : jsAverage [] = JSNum.nan := by
  simp [jsAverage, JSNum.div]

theorem jsAverage_of_ne_nil (l : List DailyRecord) (h : l ≠ []) :
    jsAverage l = JSNum.num ((l.map (fun r => r.count)).sum / (l.length : ℚ)) := by
  have hl : (l.length : ℚ) ≠ 0 := by
    simpa using fun hh => h (List.length_eq_zero.mp hh)
  simp [jsAverage, JSNum.div, hl]

theorem jsAverage_nonneg_num (l : List DailyRecord) (hne : l ≠ [])
    (hpos : ∀ r ∈ l, 0 ≤ r.count) :
    ∃ a : ℚ, 0 ≤ a ∧ jsAverage l = JSNum.num a := by
  refine ⟨_, ?_, jsAverage_of_ne_nil l hne⟩
  apply div_nonneg
  · apply List.sum_nonneg
    intro x hx
    obtain ⟨r, hr, rfl⟩ := List.mem_map.mp hx
    exact hpos r hr
  · positivity

/-- C1, amended: the Group-Average Calculator has no typed error path.  On a
record set with an empty full-moon or an empty non-full-moon partition, the
empty partition's average, the normalized full-moon rate and the percent
difference are all NaN, and this NaN is what the caller receives. -/
theorem c1_empty_partition_returns_nan (l : List DailyRecord)
    (h : l.filter (fun d => d.isFullMoon) = [] ∨
      l.filter (fun d => !d.isFullMoon) = []) :
    ((StatisticsPanel.calculateStats l).fullMoonAvgCrimes = JSNum.nan ∨
      (StatisticsPanel.calculateStats l).nonFullMoonAvgCrimes = JSNum.nan) ∧
    (StatisticsPanel.calculateStats l).normalizedFullMoonRate = JSNum.nan ∧
    (StatisticsPanel.calculateStats l).percentDifference = JSNum.nan := by
  rcases h with h | h
  · exact ⟨Or.inl (by simp [StatisticsPanel.calculateStats, h]),
      by simp [StatisticsPanel.calculateStats, h],
      by simp [StatisticsPanel.calculateStats, h]⟩
  · exact ⟨Or.inr (by simp [StatisticsPanel.calculateStats, h]),
      by simp [StatisticsPanel.calculateStats, h],
      by simp [StatisticsPanel.calculateStats, h]⟩

/-- C1, witness: the amended statement instantiated at the one-record set
with no full-moon day. -/
theorem c1_empty_partition_returns_nan_witness :
    ((StatisticsPanel.calculateStats exampleNoFullMoon).fullMoonAvgCrimes = JSNum.nan ∨
      (StatisticsPanel.calculateStats exampleNoFullMoon).nonFullMoonAvgCrimes = JSNum.nan) ∧
    (StatisticsPanel.calculateStats exampleNoFullMoon).normalizedFullMoonRate = JSNum.nan ∧
    (StatisticsPanel.calculateStats exampleNoFullMoon).percentDifference = JSNum.nan :=
  c1_empty_partition_returns_nan exampleNoFullMoon (Or.inl (by decide))

/-- C2, amended: the Effect-Size computation has no typed error path.  When
the baseline (non-full-moon) average is zero and counts are non-negative,
the normalized ratio of DistributionAnalysis and the effect size of
GeographicalInsights are Infinity (or NaN when the treatment average is NaN
or zero as well). -/
theorem c2_zero_baseline_returns_infinity (cd : CityData)
    (hpos : ∀ r ∈ cd.dailyData, 0 ≤ r.count)
    (h0 : (DistributionAnalysis.calculateStats cd.dailyData).nonFullMoonAvgCrimes =
      JSNum.num 0) :
    ((DistributionAnalysis.calculateStats cd.dailyData).normalizedFullMoonRate =
        JSNum.inf ∨
      (DistributionAnalysis.calculateStats cd.dailyData).normalizedFullMoonRate =
        JSNum.nan) ∧
    ((GeographicalInsights.calculateCityStats cd).effectSize = JSNum.inf ∨
      (GeographicalInsights.calculateCityStats cd).effectSize = JSNum.nan) := by
  have h0x : jsAverage (cd.dailyData.filter (fun d => !d.isFullMoon)) = JSNum.num 0 := by
    simpa [DistributionAnalysis.calculateStats] using h0
  by_cases hfm : cd.dailyData.filter (fun d => d.isFullMoon) = []
  · constructor
    · exact Or.inr (by simp [DistributionAnalysis.calculateStats, hfm, h0x])
    · exact Or.inr (by simp [GeographicalInsights.calculateCityStats, hfm, h0x])
  · obtain ⟨a, ha, hav⟩ := jsAverage_nonneg_num _ hfm
      (fun r hr => hpos r (List.mem_of_mem_filter hr))
    by_cases haz : a = 0
    · constructor
      · refine Or.inr ?_
        simp only [DistributionAnalysis.calculateStats]
        rw [hav, h0x]
        simp [JSNum.div, haz]
      · refine Or.inr ?_
        simp only [GeographicalInsights.calculateCityStats]
        rw [hav, h0x]
        simp [JSNum.sub, JSNum.div, JSNum.mul, haz]
    · have hapos : 0 < a := lt_of_le_of_ne ha (Ne.symm haz)
      constructor
      · refine Or.inl ?_
        simp only [DistributionAnalysis.calculateStats]
        rw [hav, h0x]
        simp [JSNum.div, haz, hapos]
      · refine Or.inl ?_
        simp only [GeographicalInsights.calculateCityStats]
        rw [hav, h0x]
        simp [JSNum.sub, JSNum.div, JSNum.mul, haz, hapos]

/-- C2, witness: the amended statement instantiated at a dataset whose
non-full-moon group averages to zero. -/
theorem c2_zero_baseline_returns_infinity_witness :
    ((DistributionAnalysis.calculateStats exampleZeroBaselineCity.dailyData).normalizedFullMoonRate =
        JSNum.inf ∨
      (DistributionAnalysis.calculateStats exampleZeroBaselineCity.dailyData).normalizedFullMoonRate =
        JSNum.nan) ∧
    ((GeographicalInsights.calculateCityStats exampleZeroBaselineCity).effectSize =
        JSNum.inf ∨
      (GeographicalInsights.calculateCityStats exampleZeroBaselineCity).effectSize =
        JSNum.nan) :=
  c2_zero_baseline_returns_infinity exampleZeroBaselineCity (by decide)
    (by norm_num [DistributionAnalysis.calculateStats, jsAverage,
      exampleZeroBaselineCity, exampleZeroBaseline, JSNum.div])

theorem mapM_eq_some_map {α β : Type} (f : α → Option β) (g : α → β)
    (l : List α) (h : ∀ a ∈ l, f a = some (g a)) :
    l.mapM f = some (l.map g) := by
  induction l with
  | nil => rfl
  | cons x xs ih =>
    rw [List.mapM_cons, h x (List.mem_cons_self x xs),
      ih (fun a ha => h a (List.mem_cons_of_mem x ha))]
    rfl

/-- C3, amended: when every one of the seven weekdays occurs at least once in
the data, getDayOfWeekData returns exactly 7 buckets, each backed by at
least one record; when a weekday has no records the aggregation crashes
(none), as the counterexample shows. -/
theorem c3_seven_buckets_when_all_weekdays_present (data : List DailyRecord)
    (h : ∀ w, w < 7 → ∃ r ∈ data, jsGetDay r.date = w) :
    ∃ l, TimeAnalysis.getDayOfWeekData data = some l ∧ l.length = 7 ∧
      ∀ b ∈ l, 1 ≤ b.totalDays := by
  have hmem : ∀ w, w < 7 → ∃ r, r ∈ data.filter (fun r => jsGetDay r.date == w) := by
    intro w hw
    obtain ⟨r, hr, hrw⟩ := h w hw
    exact ⟨r, List.mem_filter.mpr ⟨hr, by simp [hrw]⟩⟩
  have hsome : ∀ w ∈ List.range 7,
      (if (data.filter (fun r => jsGetDay r.date == w)).isEmpty then none
        else some (TimeAnalysis.weekdayBucket data w)) =
        some (TimeAnalysis.weekdayBucket data w) := by
    intro w hw
    obtain ⟨r, hr⟩ := hmem w (List.mem_range.mp hw)
    rw [if_neg]
    simp only [List.isEmpty_iff]
    exact List.ne_nil_of_mem hr
  refine ⟨(List.range 7).map (TimeAnalysis.weekdayBucket data), ?_, by simp, ?_⟩
  · unfold TimeAnalysis.getDayOfWeekData
    exact mapM_eq_some_map _ _ _ hsome
  · intro b hb
    obtain ⟨w, hw, rfl⟩ := List.mem_map.mp hb
    obtain ⟨r, hr⟩ := hmem w (List.mem_range.mp hw)
    simpa [TimeAnalysis.weekdayBucket] using
      List.length_pos.mpr (List.ne_nil_of_mem hr)

/-- C3, witness: the amended statement instantiated at seven records covering
all weekdays. -/
theorem c3_seven_buckets_when_all_weekdays_present_witness :
    ∃ l, TimeAnalysis.getDayOfWeekData exampleFullWeek = some l ∧ l.length = 7 ∧
      ∀ b ∈ l, 1 ≤ b.totalDays :=
  c3_seven_buckets_when_all_weekdays_present exampleFullWeek (by decide)

theorem daysInCalendarMonth_pos (y m : ℕ) : 0 < daysInCalendarMonth y m := by
  unfold daysInCalendarMonth
  split_ifs <;> norm_num

theorem mem_monthKeys (data : List DailyRecord) (k : ℕ × ℕ)
    (hk : k ∈ TimeAnalysis.monthKeys data) :
    ∃ r ∈ data, TimeAnalysis.monthKey r = k := by
  have step : ∀ (l : List DailyRecord) (ks : List (ℕ × ℕ)),
      k ∈ l.foldl
        (fun ks r =>
          if TimeAnalysis.monthKey r ∈ ks then ks else ks ++ [TimeAnalysis.monthKey r])
        ks →
      k ∈ ks ∨ ∃ r ∈ l, TimeAnalysis.monthKey r = k := by
    intro l
    induction l with
    | nil => exact fun ks hks => Or.inl hks
    | cons x xs ih =>
      intro ks hks
      rw [List.foldl_cons] at hks
      rcases ih _ hks with hin | hex
      · by_cases hx : TimeAnalysis.monthKey x ∈ ks
        · rw [if_pos hx] at hin
          exact Or.inl hin
        · rw [if_neg hx] at hin
          rcases List.mem_append.mp hin with hin | hin
          · exact Or.inl hin
          · refine Or.inr ⟨x, List.mem_cons_self x xs, ?_⟩
            have : k = TimeAnalysis.monthKey x := by simpa using hin
            exact this.symm
      · obtain ⟨r, hr, hrk⟩ := hex
        exact Or.inr ⟨r, List.mem_cons_of_mem x hr, hrk⟩
  rcases step data [] hk with hin | hex
  · simp at hin
  · exact hex

/-- C5, amended: the completeness field of every monthly bucket is the
percentage (observed distinct days / calendar-month length) * 100: it lies
in (0, 100], uses the leap-aware calendar length, and equals 100 exactly
when the number of observed distinct days equals the month length.  (The
claimed range (0, 1] and ratio without the factor 100 are off by the percent
scale, as the counterexample shows.) -/
theorem c5_completeness_is_percentage (data : List DailyRecord)
    (hvalid : ∀ r ∈ data,
      1 ≤ r.date.day ∧ r.date.day ≤ daysInCalendarMonth r.date.year r.date.month)
    (b : TimeAnalysis.MonthBucket) (hb : b ∈ TimeAnalysis.getMonthlyData data) :
    b.completeness = (b.daysWithData / (b.daysInMonth : ℚ)) * 100 ∧
    0 < b.completeness ∧ b.completeness ≤ 100 ∧
    (b.daysWithData = (b.daysInMonth : ℚ) → b.completeness = 100) := by
  simp only [TimeAnalysis.getMonthlyData, List.mem_map] at hb
  obtain ⟨k, hk, rfl⟩ := hb
  obtain ⟨r0, hr0, hr0k⟩ := mem_monthKeys data k hk
  have hr0mem : r0 ∈ data.filter (fun r => TimeAnalysis.monthKey r = k) :=
    List.mem_filter.mpr ⟨hr0, by simp [hr0k]⟩
  have hn1 : 1 ≤ ((data.filter (fun r => TimeAnalysis.monthKey r = k)).map
      (fun r => r.date.day)).dedup.length := by
    have hd : r0.date.day ∈ ((data.filter (fun r => TimeAnalysis.monthKey r = k)).map
        (fun r => r.date.day)).dedup :=
      List.mem_dedup.mpr (List.mem_map_of_mem _ hr0mem)
    exact List.length_pos.mpr (List.ne_nil_of_mem hd)
  have hdim : 0 < daysInCalendarMonth k.1 k.2 := daysInCalendarMonth_pos k.1 k.2
  have hub : ((data.filter (fun r => TimeAnalysis.monthKey r = k)).map
      (fun r => r.date.day)).dedup.length ≤ daysInCalendarMonth k.1 k.2 := by
    set dd := ((data.filter (fun r => TimeAnalysis.monthKey r = k)).map
      (fun r => r.date.day)).dedup with hdd
    have hnd : dd.Nodup := List.nodup_dedup _
    have hsub : dd.toFinset ⊆ Finset.Icc 1 (daysInCalendarMonth k.1 k.2) := by
      intro x hx
      rw [List.mem_toFinset, hdd, List.mem_dedup, List.mem_map] at hx
      obtain ⟨r, hrm, rfl⟩ := hx
      obtain ⟨hrdata, hrk⟩ := List.mem_filter.mp hrm
      have hkk : TimeAnalysis.monthKey r = k := by simpa using hrk
      have hyv := hvalid r hrdata
      have hy : r.date.year = k.1 := by rw [← hkk]; rfl
      have hm : r.date.month = k.2 := by rw [← hkk]; rfl
      rw [hy, hm] at hyv
      exact Finset.mem_Icc.mpr hyv
    calc dd.length = dd.toFinset.card := (List.toFinset_card_of_nodup hnd).symm
      _ ≤ (Finset.Icc 1 (daysInCalendarMonth k.1 k.2)).card := Finset.card_le_card hsub
      _ = daysInCalendarMonth k.1 k.2 := by rw [Nat.card_Icc]; omega
  dsimp only
  have hq1 : (1 : ℚ) ≤ ((data.filter (fun r => TimeAnalysis.monthKey r = k)).map
      (fun r => r.date.day)).dedup.length := by exact_mod_cast hn1
  have hqdim : (0 : ℚ) < (daysInCalendarMonth k.1 k.2 : ℚ) := by exact_mod_cast hdim
  have hqub : (((data.filter (fun r => TimeAnalysis.monthKey r = k)).map
      (fun r => r.date.day)).dedup.length : ℚ) ≤ (daysInCalendarMonth k.1 k.2 : ℚ) := by
    exact_mod_cast hub
  refine ⟨rfl, ?_, ?_, ?_⟩
  · positivity
  · have hle1 : (((data.filter (fun r => TimeAnalysis.monthKey r = k)).map
        (fun r => r.date.day)).dedup.length : ℚ) / (daysInCalendarMonth k.1 k.2 : ℚ) ≤ 1 :=
      (div_le_one hqdim).mpr hqub
    linarith
  · intro he
    rw [he, div_self (ne_of_gt hqdim)]
    norm_num

/-- C5, witness: the amended statement instantiated at the single-record
January 2024 dataset and its bucket. -/
theorem c5_completeness_is_percentage_witness :
    exampleJanuaryBucket.completeness =
      (exampleJanuaryBucket.daysWithData / (exampleJanuaryBucket.daysInMonth : ℚ)) * 100 ∧
    0 < exampleJanuaryBucket.completeness ∧ exampleJanuaryBucket.completeness ≤ 100 ∧
    (exampleJanuaryBucket.daysWithData = (exampleJanuaryBucket.daysInMonth : ℚ) →
      exampleJanuaryBucket.completeness = 100) :=
  c5_completeness_is_percentage exampleOneJanuaryDay (by decide) exampleJanuaryBucket
    (by norm_num [TimeAnalysis.getMonthlyData, TimeAnalysis.monthKeys,
      TimeAnalysis.monthKey, exampleOneJanuaryDay, exampleJanuaryBucket,
      daysInCalendarMonth, isLeapYear, List.dedup])

/-- C8: on [0, 1) the Phase Classifier realises exactly the lower-inclusive
half-open band table New Moon [0, 0.125), Waxing Crescent [0.125, 0.25),
First Quarter [0.25, 0.375), Waxing Gibbous [0.375, 0.625), Full Moon
[0.625, 0.75), Waning Gibbous [0.75, 0.875), Last Quarter [0.875, 0.95),
Waning Crescent [0.95, 1). -/
theorem c8_phase_band_table (p : ℚ) (h0 : 0 ≤ p) (h1 : p < 1) :
    (p < 0.125 → App.getMoonPhaseName p = "New Moon") ∧
    (0.125 ≤ p → p < 0.25 → App.getMoonPhaseName p = "Waxing Crescent") ∧
    (0.25 ≤ p → p < 0.375 → App.getMoonPhaseName p = "First Quarter") ∧
    (0.375 ≤ p → p < 0.625 → App.getMoonPhaseName p = "Waxing Gibbous") ∧
    (0.625 ≤ p → p < 0.75 → App.getMoonPhaseName p = "Full Moon") ∧
    (0.75 ≤ p → p < 0.875 → App.getMoonPhaseName p = "Waning Gibbous") ∧
    (0.875 ≤ p → p < 0.95 → App.getMoonPhaseName p = "Last Quarter") ∧
    (0.95 ≤ p → App.getMoonPhaseName p = "Waning Crescent") := by
  simp only [App.getMoonPhaseName, and_iff_right h0]
  refine ⟨?_, ?_, ?_, ?_, ?_, ?_, ?_, ?_⟩ <;> intros <;>
    split_ifs <;> first | rfl | linarith

/-- C8, witness: the band table instantiated at the phase value one half. -/
theorem c8_phase_band_table_witness :
    ((1 : ℚ) / 2 < 0.125 → App.getMoonPhaseName (1 / 2) = "New Moon") ∧
    (0.125 ≤ (1 : ℚ) / 2 → (1 : ℚ) / 2 < 0.25 →
      App.getMoonPhaseName (1 / 2) = "Waxing Crescent") ∧
    (0.25 ≤ (1 : ℚ) / 2 → (1 : ℚ) / 2 < 0.375 →
      App.getMoonPhaseName (1 / 2) = "First Quarter") ∧
    (0.375 ≤ (1 : ℚ) / 2 → (1 : ℚ) / 2 < 0.625 →
      App.getMoonPhaseName (1 / 2) = "Waxing Gibbous") ∧
    (0.625 ≤ (1 : ℚ) / 2 → (1 : ℚ) / 2 < 0.75 →
      App.getMoonPhaseName (1 / 2) = "Full Moon") ∧
    (0.75 ≤ (1 : ℚ) / 2 → (1 : ℚ) / 2 < 0.875 →
      App.getMoonPhaseName (1 / 2) = "Waning Gibbous") ∧
    (0.875 ≤ (1 : ℚ) / 2 → (1 : ℚ) / 2 < 0.95 →
      App.getMoonPhaseName (1 / 2) = "Last Quarter") ∧
    (0.95 ≤ (1 : ℚ) / 2 → App.getMoonPhaseName (1 / 2) = "Waning Crescent") :=
  c8_phase_band_table (1 / 2) (by norm_num) (by norm_num)

/-- C9: the synthetic hourly profile is a pure function of the sine routine,
pi and the input records and carries no hidden state: two invocations with
the same inputs produce the same sequence, and that sequence always has
exactly 24 entries. -/
theorem c9_hourly_profile_deterministic (msin : ℚ → ℚ) (mpi : ℚ)
    (data : List DailyRecord) :
    TimeAnalysis.getHourlyData msin mpi data = TimeAnalysis.getHourlyData msin mpi data ∧
    (TimeAnalysis.getHourlyData msin mpi data).length = 24 :=
  ⟨rfl, by simp [TimeAnalysis.getHourlyData]⟩

/-- C10: seededRandom always lies in [0, 1); consequently the baseline jitter
multiplier lies in [0.8, 1.2), the full-moon jitter multiplier lies in
[1.0, 1.6), and when the mean daily count is non-negative every generated
hourly rate is non-negative (using that Math.sin is bounded by 1). -/
theorem c10_jitter_and_rate_bounds (msin : ℚ → ℚ) (mpi : ℚ)
    (data : List DailyRecord) (s : ℚ) (e : TimeAnalysis.HourEntry)
    (hsin : ∀ x, -1 ≤ msin x ∧ msin x ≤ 1)
    (hmean : 0 ≤ (data.map (fun r => r.count)).sum / (data.length : ℚ))
    (he : e ∈ TimeAnalysis.getHourlyData msin mpi data) :
    (0 ≤ TimeAnalysis.seededRandom msin s ∧ TimeAnalysis.seededRandom msin s < 1) ∧
    (0.8 ≤ TimeAnalysis.seededRandom msin s * 0.4 + 0.8 ∧
      TimeAnalysis.seededRandom msin s * 0.4 + 0.8 < 1.2) ∧
    (1 ≤ TimeAnalysis.seededRandom msin s * 0.6 + 1 ∧
      TimeAnalysis.seededRandom msin s * 0.6 + 1 < 1.6) ∧
    (0 ≤ e.rate ∧ 0 ≤ e.fullMoonRate) := by
  have hfr : ∀ t : ℚ, 0 ≤ TimeAnalysis.seededRandom msin t ∧
      TimeAnalysis.seededRandom msin t < 1 := by
    intro t
    simp only [TimeAnalysis.seededRandom]
    constructor
    · linarith [Int.floor_le (msin t * 10000)]
    · linarith [Int.lt_floor_add_one (msin t * 10000)]
  refine ⟨hfr s, ⟨by linarith [(hfr s).1], by linarith [(hfr s).2]⟩,
    ⟨by linarith [(hfr s).1], by linarith [(hfr s).2]⟩, ?_⟩
  simp only [TimeAnalysis.getHourlyData, List.mem_map] at he
  obtain ⟨hour, hhour, rfl⟩ := he
  dsimp only
  have hfac : 0 ≤ msin (((hour : ℚ) - 6) * mpi / 12) + 1.5 := by
    linarith [(hsin (((hour : ℚ) - 6) * mpi / 12)).1]
  constructor
  · have hj := (hfr ((hour : ℚ) * 1000)).1
    have : 0 ≤ TimeAnalysis.seededRandom msin ((hour : ℚ) * 1000) * 0.4 + 0.8 := by
      linarith
    exact mul_nonneg (mul_nonneg hmean hfac) this
  · have hj := (hfr ((hour : ℚ) * 2000)).1
    have : 0 ≤ TimeAnalysis.seededRandom msin ((hour : ℚ) * 2000) * 0.6 + 1.0 := by
      linarith
    exact mul_nonneg (mul_nonneg hmean hfac) this

/-- C10, witness: the jitter and rate bounds instantiated with the zero sine
stand-in, pi = 3, the single-record January dataset, seed 0 and the first
generated hour entry. -/
theorem c10_jitter_and_rate_bounds_witness :
    (0 ≤ TimeAnalysis.seededRandom msinZero 0 ∧ TimeAnalysis.seededRandom msinZero 0 < 1) ∧
    (0.8 ≤ TimeAnalysis.seededRandom msinZero 0 * 0.4 + 0.8 ∧
      TimeAnalysis.seededRandom msinZero 0 * 0.4 + 0.8 < 1.2) ∧
    (1 ≤ TimeAnalysis.seededRandom msinZero 0 * 0.6 + 1 ∧
      TimeAnalysis.seededRandom msinZero 0 * 0.6 + 1 < 1.6) ∧
    (0 ≤ exampleHourEntryZero.rate ∧ 0 ≤ exampleHourEntryZero.fullMoonRate) :=
  c10_jitter_and_rate_bounds msinZero 3 exampleOneJanuaryDay 0 exampleHourEntryZero
    (fun x => ⟨by norm_num [msinZero], by norm_num [msinZero]⟩)
    (by norm_num [exampleOneJanuaryDay])
    (by
      simp only [TimeAnalysis.getHourlyData, List.mem_map]
      refine ⟨0, by norm_num, ?_⟩
      norm_num [TimeAnalysis.seededRandom, TimeAnalysis.formatHour, msinZero,
        exampleOneJanuaryDay, exampleHourEntryZero, TimeAnalysis.HourEntry.mk.injEq])
